import Mathlib

/-!
Verification of the LeafHealth client's interaction/state-lifecycle layer.

The definitions below are a shallow embedding of the JavaScript source:
  * `src/frontend/src/pages/HomePage.jsx`   — prediction request controller
  * `src/frontend/src/pages/ChatPage.jsx`   — chat session controller
  * `src/frontend/src/pages/HistoryPage.jsx` — history view model

Asynchronous reads and network round-trips are modelled as explicit
events: a handler function computes the next local state together with
the list of network requests it issues.  JavaScript string primitives
(`split`, `trim`, `startsWith`) are embedded as structural functions on
character lists so that every definition evaluates by kernel reduction.
-/

namespace LeafHealth

/-! ## Embedded JavaScript string primitives -/

/-- Embedding of `String.prototype.split(',')` on a character list:
splits into the (possibly empty) groups between commas. -/
def splitCommaList : List Char → List (List Char)
  | [] => [[]]
  | c :: cs =>
    if c = ',' then [] :: splitCommaList cs
    else
      match splitCommaList cs with
      | [] => [[c]]
      | g :: gs => (c :: g) :: gs

/-- Version of `s.split(',')` on strings. -/
def jsSplitComma (s : String) : List String :=
  (splitCommaList s.toList).map (fun l => String.mk l)

/-- Embedding of `s.split(',')[1]`: `none` models JavaScript
`undefined` when the string holds no comma. -/
def base64Of (s : String) : Option String :=
  (jsSplitComma s).get? 1

/-- The spec's own description of the transport payload: the substring
of the display URI following the first comma (declared from the spec's
words, to be compared with the source's `split(',')[1]`). -/
def afterFirstCommaList : List Char → Option (List Char)
  | [] => none
  | c :: cs => if c = ',' then some cs else afterFirstCommaList cs

/-- Substring following the first comma, on strings. -/
def afterFirstComma (s : String) : Option String :=
  (afterFirstCommaList s.toList).map (fun l => String.mk l)

/-- Whitespace per JavaScript `trim`. -/
def isJsSpace (c : Char) : Bool :=
  c = ' ' || c = '\t' || c = '\n' || c = '\r'

/-- Embedding of `String.prototype.trim()`. -/
def jsTrim (s : String) : String :=
  String.mk (((s.toList.dropWhile isJsSpace).reverse.dropWhile isJsSpace).reverse)

/-- Embedding of `String.prototype.startsWith(pre)` on character lists. -/
def startsWithL : List Char → List Char → Bool
  | _, [] => true
  | [], _ :: _ => false
  | c :: cs, p :: ps => c = p && startsWithL cs ps

/-- Version of `s.startsWith(pre)` on strings. -/
def jsStartsWith (s pre : String) : Bool :=
  startsWithL s.toList pre.toList

/-! ## Data model -/

/-- The prediction record returned by `POST /api/predict`. -/
structure Prediction where
  disease_name : String
  confidence : Nat
  description : String
  treatments : List String
  prevention_tips : List String
deriving Repr, DecidableEq

/-- A user-selected file: its reported MIME type and the data URI that
`FileReader.readAsDataURL` would produce for it. -/
structure FileCandidate where
  type : String
  dataUri : String
deriving Repr, DecidableEq

/-- Body of `POST /api/predict` (HomePage.jsx lines 46-48). -/
structure PredictRequest where
  image_base64 : Option String
deriving Repr, DecidableEq

/-- The MIME-type validation `file.type.startsWith('image/')` shared by
both image-select handlers. -/
def isImageMime (t : String) : Bool :=
  jsStartsWith t "image/"

/-! ## HomePage (prediction request controller) -/

/-- Local state of `HomePage`: `selectedImage`, `isLoading`,
`prediction` (HomePage.jsx lines 13-15). -/
structure HomeState where
  selectedImage : Option String
  isLoading : Bool
  prediction : Option Prediction
deriving Repr, DecidableEq

/-- Initial `useState` values (HomePage.jsx lines 13-15). -/
def initialHomeState : HomeState :=
  { selectedImage := none, isLoading := false, prediction := none }

/-- Embedding of `handleImageSelect` (HomePage.jsx lines 19-33), with the
asynchronous read folded in: on a non-image type it toasts an error and
returns without touching state; on an image type the started read,
once complete, applies `setSelectedImage(reader.result)`.  The result
triple is (next state, network requests issued, error toast). -/
def handleImageSelect (st : HomeState) (f : FileCandidate) :
    HomeState × List PredictRequest × Option String :=
  if isImageMime f.type then
    ({ st with selectedImage := some f.dataUri }, [], none)
  else
    (st, [], some "Please select a valid image file")

/-- A completed `FileReader.onloadend` callback (HomePage.jsx lines
28-30, ChatPage.jsx lines 50-52): it applies
`setSelectedImage(reader.result)` unconditionally — there is no
generation token checking whether the read was superseded. -/
def applyReadCompletion (st : HomeState) (result : String) : HomeState :=
  { st with selectedImage := some result }

/-- The selection state after a list of reads complete, in completion
order. -/
def applyReadCompletions (st : HomeState) (results : List String) : HomeState :=
  results.foldl applyReadCompletion st

/-- The body of `analyzeImage` up to its await point (HomePage.jsx
lines 35-48): no image selected reports an error and issues nothing;
otherwise it sets `isLoading`, extracts the base64 body with
`selectedImage.split(',')[1]` and issues one `POST /api/predict`. -/
def analyzeImageStart (st : HomeState) : HomeState × List PredictRequest :=
  match st.selectedImage with
  | none => (st, [])
  | some img => ({ st with isLoading := true }, [{ image_base64 := base64Of img }])

/-- A click on the Analyze button: the button carries
`disabled={!selectedImage || isLoading}` (HomePage.jsx line 136), so a
click reaches `analyzeImage` only when enabled. -/
def clickAnalyze (st : HomeState) : HomeState × List PredictRequest :=
  if st.selectedImage = none ∨ st.isLoading = true then (st, [])
  else analyzeImageStart st

/-- Successful resolution of the predict request (HomePage.jsx lines
50-51 and the `finally` on line 56). -/
def predictSuccess (st : HomeState) (p : Prediction) : HomeState :=
  { st with prediction := some p, isLoading := false }

/-- The failure message `error.response?.data?.detail || "Failed to
analyze image"` (HomePage.jsx line 54): `||` takes the generic message
whenever `detail` is absent or falsy (the empty string). -/
def predictFailureMessage (detail : Option String) : String :=
  match detail with
  | some d => if d = "" then "Failed to analyze image" else d
  | none => "Failed to analyze image"

/-- Failed resolution of the predict request (HomePage.jsx lines
52-57): state keeps its selection and prediction, `isLoading` clears,
and the toast carries `predictFailureMessage`. -/
def predictFailure (st : HomeState) (detail : Option String) :
    HomeState × String :=
  ({ st with isLoading := false }, predictFailureMessage detail)

/-- Embedding of `resetAnalysis` (HomePage.jsx lines 60-63). -/
def resetAnalysis (st : HomeState) : HomeState :=
  { st with selectedImage := none, prediction := none }

/-! ## ChatPage (chat session controller) -/

/-- A chat message as held in the `messages` state (ChatPage.jsx lines
60-65 and 82-86): role, text, optional `image_base64`. -/
structure ChatMsg where
  role : String
  message : String
  image_base64 : Option String
deriving Repr, DecidableEq

/-- Body of `POST /api/chat` (ChatPage.jsx lines 76-80). -/
structure ChatRequest where
  session_id : String
  message : String
  image_base64 : Option String
deriving Repr, DecidableEq

/-- Local state of `ChatPage`: `messages`, `inputMessage`, `isLoading`,
`sessionId`, `selectedImage` (ChatPage.jsx lines 12-16). -/
structure ChatState where
  messages : List ChatMsg
  inputMessage : String
  isLoading : Bool
  sessionId : String
  selectedImage : Option String
deriving Repr, DecidableEq

/-- Embedding of `handleImageSelect` on the chat page (ChatPage.jsx lines 41-55),
with the read folded in as for the home page; it issues no chat
request either way. -/
def chatHandleImageSelect (st : ChatState) (f : FileCandidate) :
    ChatState × List ChatRequest × Option String :=
  if isImageMime f.type then
    ({ st with selectedImage := some f.dataUri }, [], none)
  else
    (st, [], some "Please select a valid image file")

/-- The body of `sendMessage` up to its await point (ChatPage.jsx lines
57-80): the empty-composer guard `!inputMessage.trim() &&
!selectedImage` returns without effect; otherwise the user message —
carrying the raw `inputMessage` and the raw `selectedImage` value as
its `image_base64` — is appended, the composer and attachment clear,
`isLoading` is set, and one `POST /api/chat` is issued whose `message`
is `inputMessage || "Please analyze this image"` and whose
`image_base64` is `imageToSend.split(',')[1]`. -/
def sendMessageStart (st : ChatState) : ChatState × List ChatRequest :=
  if jsTrim st.inputMessage = "" ∧ st.selectedImage = none then (st, [])
  else
    let userMessage : ChatMsg :=
      { role := "user", message := st.inputMessage, image_base64 := st.selectedImage }
    let req : ChatRequest :=
      { session_id := st.sessionId
        message := if st.inputMessage = "" then "Please analyze this image" else st.inputMessage
        image_base64 := st.selectedImage.bind base64Of }
    ({ st with
        messages := st.messages ++ [userMessage]
        inputMessage := ""
        selectedImage := none
        isLoading := true },
      [req])

/-- Successful completion of the chat round-trip (ChatPage.jsx lines
82-88 and the `finally` on line 93): the assistant reply is appended
and `isLoading` clears. -/
def sendMessageSuccess (st : ChatState) (reply : String) : ChatState :=
  { st with
      messages := st.messages ++ [{ role := "assistant", message := reply, image_base64 := none }]
      isLoading := false }

/-- Failed completion of the chat round-trip (ChatPage.jsx lines
89-94): only `isLoading` clears; the optimistic user message stays and
no assistant message is appended. -/
def sendMessageFailure (st : ChatState) : ChatState :=
  { st with isLoading := false }

/-- A click on the Send button, which carries
`disabled={(!inputMessage.trim() && !selectedImage) || isLoading}`
(ChatPage.jsx line 209): a click reaches `sendMessage` only when
enabled. -/
def clickSend (st : ChatState) : ChatState × List ChatRequest :=
  if (jsTrim st.inputMessage = "" ∧ st.selectedImage = none) ∨ st.isLoading = true then
    (st, [])
  else sendMessageStart st

/-- Embedding of `handleKeyPress` for Enter without Shift (ChatPage.jsx lines
97-102): it calls `sendMessage()` directly, with no `isLoading`
check. -/
def pressEnterNoShift (st : ChatState) : ChatState × List ChatRequest :=
  sendMessageStart st

/-- The rendered `src` of a message's attachment (ChatPage.jsx line
142): the stored `image_base64` re-prefixed with a data-URI scheme. -/
def displaySrc (b : String) : String :=
  "data:image/jpeg;base64," ++ b

/-- One serialized send round-trip: the composer is set to `text` with
attachment `img`, `sendMessage` runs, and — when a request went out —
its outcome (`some reply` for success, `none` for failure) completes
before anything else happens. -/
def serializedSend (st : ChatState) (text : String) (img : Option String)
    (outcome : Option String) : ChatState × List ChatRequest :=
  let st1 := { st with inputMessage := text, selectedImage := img }
  let p := sendMessageStart st1
  match p.2 with
  | [] => p
  | _ =>
    match outcome with
    | some reply => (sendMessageSuccess p.1 reply, p.2)
    | none => (sendMessageFailure p.1, p.2)

/-- A sequence of serialized sends without attachments: each list entry
gives the composer text and the round-trip outcome. -/
def runSends (st : ChatState) : List (String × Option String) → ChatState
  | [] => st
  | (t, o) :: rest => runSends (serializedSend st t none o).1 rest

/-- The user message `sendMessage` appends for composer text `t` with
no attachment. -/
def userMsg (t : String) : ChatMsg :=
  { role := "user", message := t, image_base64 := none }

/-- The assistant message appended for reply `r`. -/
def assistantMsg (r : String) : ChatMsg :=
  { role := "assistant", message := r, image_base64 := none }

/-- A fresh chat session: empty message list, empty composer, not
awaiting, no attachment (ChatPage.jsx lines 12-16). -/
def emptyChat (sid : String) : ChatState :=
  { messages := [], inputMessage := "", isLoading := false
    sessionId := sid, selectedImage := none }

/-! ## Concrete states used as test inputs -/

/-- A sample prediction, as in the spec's walk-through scenario. -/
def predExample : Prediction :=
  { disease_name := "Leaf Blight", confidence := 92
    description := "A fungal infection of the leaf surface."
    treatments := ["Remove affected leaves", "Apply fungicide"]
    prevention_tips := ["Avoid overwatering"] }

/-- Home state in the Ready shape: image selected, not loading. -/
def homeReady : HomeState :=
  { selectedImage := some "data:image/png;base64,AAAA"
    isLoading := false, prediction := none }

/-- Home state in the Pending shape: request in flight. -/
def homePending : HomeState :=
  { selectedImage := some "data:image/png;base64,AAAA"
    isLoading := true, prediction := none }

/-- Home state in the Resolved shape: a prediction is held. -/
def homeResolved : HomeState :=
  { selectedImage := some "data:image/png;base64,AAAA"
    isLoading := false, prediction := some predExample }

/-- A valid image file candidate. -/
def pngFile : FileCandidate :=
  { type := "image/png", dataUri := "data:image/png;base64,BBBB" }

/-- A non-image file candidate. -/
def pdfFile : FileCandidate :=
  { type := "application/pdf", dataUri := "data:application/pdf;base64,CCCC" }

/-- Chat state while a round-trip is outstanding (`isLoading = true`)
and the user has typed new text into the still-enabled input field. -/
def chatAwaiting : ChatState :=
  { messages := [userMsg "first question"]
    inputMessage := "hi", isLoading := true
    sessionId := "session_1700000000000", selectedImage := none }

/-- Chat state with an empty composer and a pending attachment. -/
def chatAttachmentOnly : ChatState :=
  { messages := [], inputMessage := "", isLoading := false
    sessionId := "session_1700000000000"
    selectedImage := some "data:image/png;base64,AAAA" }

/-- Chat state with composer text and a pending attachment. -/
def chatWithAttachment : ChatState :=
  { messages := [], inputMessage := "look at this leaf", isLoading := false
    sessionId := "session_1700000000000"
    selectedImage := some "data:image/png;base64,AAAA" }

/-! ## C1 — at most one predict request in flight -/

/-- C1: for the prediction controller, at most one diagnosis request is
in flight at a time.  A click on the Analyze button while `isLoading`
holds is a no-op (the button is disabled), and two clicks in rapid
succession from a Ready state — no response arriving in between —
issue exactly one `POST /api/predict`. -/
theorem predict_at_most_one_in_flight (st stp : HomeState) (img : String)
    (himg : st.selectedImage = some img) (hload : st.isLoading = false)
    (hp : stp.isLoading = true) :
    ((clickAnalyze st).2 ++ (clickAnalyze (clickAnalyze st).1).2).length = 1
      ∧ clickAnalyze stp = (stp, []) := by
  constructor
  · simp [clickAnalyze, analyzeImageStart, himg, hload]
  · simp [clickAnalyze, hp]

/-- Witness for C1 at the concrete Ready and Pending states. -/
theorem predict_at_most_one_in_flight_witness :
    ((clickAnalyze homeReady).2 ++ (clickAnalyze (clickAnalyze homeReady).1).2).length = 1
      ∧ clickAnalyze homePending = (homePending, []) :=
  predict_at_most_one_in_flight homeReady homePending
    "data:image/png;base64,AAAA" rfl rfl rfl

/-! ## C5 — selecting an image does not clear the prediction -/

/-- Counterexample to C5: from a Resolved state, a successful
`handleImageSelect` leaves the previously held Prediction in place —
the prediction field is not cleared by the transition, contradicting
the claim that the previous Prediction is discarded. -/
theorem select_image_keeps_prediction_cex :
    (handleImageSelect homeResolved pngFile).1.prediction = some predExample
      ∧ (handleImageSelect homeResolved pngFile).1.prediction ≠ none := by
  constructor
  · rfl
  · intro h
    simp [handleImageSelect, homeResolved, pngFile, isImageMime,
      jsStartsWith, startsWithL] at h

/-- C5 as amended: a successful `selectImage` replaces the selected
image and leaves the prediction field unchanged; the held Prediction is
discarded only by `resetAnalysis`.  (In the rendered page the upload
area is shown only while no prediction is held, so reaching selection
from Resolved goes through reset.) -/
theorem select_image_success (st : HomeState) (f : FileCandidate)
    (h : isImageMime f.type = true) :
    (handleImageSelect st f).1 = { st with selectedImage := some f.dataUri }
      ∧ (handleImageSelect st f).1.prediction = st.prediction
      ∧ (resetAnalysis st).prediction = none := by
  simp [handleImageSelect, resetAnalysis, h]

/-- Witness for the amended C5 at the Resolved state and a png file. -/
theorem select_image_success_witness :
    (handleImageSelect homeResolved pngFile).1
        = { homeResolved with selectedImage := some pngFile.dataUri }
      ∧ (handleImageSelect homeResolved pngFile).1.prediction = homeResolved.prediction
      ∧ (resetAnalysis homeResolved).prediction = none :=
  select_image_success homeResolved pngFile rfl

/-! ## C6 — superseded reads are applied, not discarded -/

/-- Counterexample to C6: reads are started in the order first-call,
second-call, but complete in the order second-call, first-call; the
`onloadend` callback applies its result unconditionally, so the final
selection is the superseded first call's result — it is applied, not
discarded. -/
theorem stale_read_applied_cex :
    (applyReadCompletions initialHomeState
        ["data:image/png;base64,SECOND", "data:image/png;base64,FIRST"]).selectedImage
        = some "data:image/png;base64,FIRST"
      ∧ ("data:image/png;base64,FIRST" : String) ≠ "data:image/png;base64,SECOND" := by
  exact ⟨rfl, by decide⟩

/-- C6 as amended: encoding is last-completion-wins, not
last-call-wins — after any sequence of read completions the selection
holds the result of whichever read completed last, regardless of the
order in which the reads were started. -/
theorem last_completion_wins (st : HomeState) (results : List String) (r : String) :
    (applyReadCompletions st (results ++ [r])).selectedImage = some r := by
  induction results generalizing st with
  | nil => rfl
  | cons a l ih => exact ih { st with selectedImage := some a }

/-! ## C9 — failure message surfacing and state retention -/

/-- Counterexample to C9: when the nested `detail` field is present but
holds the empty string, the code surfaces the generic message, not the
service-reported value verbatim (`detail || generic` takes the generic
branch on any falsy value). -/
theorem empty_detail_not_verbatim_cex :
    (predictFailure homePending (some "")).2 = "Failed to analyze image"
      ∧ (predictFailure homePending (some "")).2 ≠ "" := by
  exact ⟨rfl, by decide⟩

/-- C9 as amended: on request failure the controller clears
`isLoading` and keeps selection and prediction unchanged, surfaces the
nested `detail` verbatim when present and non-empty, and surfaces the
generic message when `detail` is absent. -/
theorem predict_failure_behavior (st : HomeState) (d : String) (hd : d ≠ "") :
    (predictFailure st (some d)).1 = { st with isLoading := false }
      ∧ (predictFailure st (some d)).2 = d
      ∧ (predictFailure st none).2 = "Failed to analyze image"
      ∧ (predictFailure st (some d)).1.selectedImage = st.selectedImage
      ∧ (predictFailure st (some d)).1.prediction = st.prediction := by
  refine ⟨rfl, ?_, rfl, rfl, rfl⟩
  simp [predictFailure, predictFailureMessage, hd]

/-- Witness for the amended C9 at the Pending state with a concrete
detail message. -/
theorem predict_failure_behavior_witness :
    (predictFailure homePending (some "Invalid image format")).1
        = { homePending with isLoading := false }
      ∧ (predictFailure homePending (some "Invalid image format")).2 = "Invalid image format"
      ∧ (predictFailure homePending none).2 = "Failed to analyze image"
      ∧ (predictFailure homePending (some "Invalid image format")).1.selectedImage
        = homePending.selectedImage
      ∧ (predictFailure homePending (some "Invalid image format")).1.prediction
        = homePending.prediction :=
  predict_failure_behavior homePending "Invalid image format" (by decide)

/-! ## C10 — non-image files are rejected without effect -/

/-- C10: a file whose MIME type does not start with `image/` is
rejected with the invalid-media toast on both pages, the existing
selection (and all other state) is untouched, and no network request
is issued. -/
theorem nonimage_select_rejected (hst : HomeState) (cst : ChatState)
    (f : FileCandidate) (h : isImageMime f.type = false) :
    handleImageSelect hst f = (hst, [], some "Please select a valid image file")
      ∧ chatHandleImageSelect cst f = (cst, [], some "Please select a valid image file") := by
  simp [handleImageSelect, chatHandleImageSelect, h]

/-- Witness for C10 at a pdf file on both pages' states. -/
theorem nonimage_select_rejected_witness :
    handleImageSelect homeReady pdfFile
        = (homeReady, [], some "Please select a valid image file")
      ∧ chatHandleImageSelect chatAttachmentOnly pdfFile
        = (chatAttachmentOnly, [], some "Please select a valid image file") :=
  nonimage_select_rejected homeReady chatAttachmentOnly pdfFile (by decide)

/-! ## C2 — the Enter key bypasses the awaiting-reply gate -/

/-- Failing input for C2: while a round-trip is outstanding
(`isLoading = true`) and the composer holds `"hi"`, pressing Enter
calls `sendMessage` directly — `handleKeyPress` performs no
`isLoading` check — so a second user message is appended and a second
`POST /api/chat` goes out while the first is in flight.  The Send
button is disabled in the same state (last conjunct), which is the
serialization the claim describes; the keyboard path bypasses it. -/
theorem enter_bypasses_awaiting_gate :
    chatAwaiting.isLoading = true
      ∧ (pressEnterNoShift chatAwaiting).2
        = [{ session_id := "session_1700000000000", message := "hi", image_base64 := none }]
      ∧ (pressEnterNoShift chatAwaiting).1.messages
        = [userMsg "first question", userMsg "hi"]
      ∧ clickSend chatAwaiting = (chatAwaiting, []) := by
  refine ⟨rfl, ?_, ?_, ?_⟩ <;> decide

/-! ## C4 — the placeholder goes to the wire, not to the local append -/

/-- Counterexample to C4: on a send with empty composer text and a
pending attachment, the locally appended user message carries the
empty composer text — not the placeholder — and the request body
carries `"Please analyze this image"` (capital P), which also differs
from the claim's quoted text. -/
theorem placeholder_only_in_request_cex :
    (sendMessageStart chatAttachmentOnly).1.messages.map ChatMsg.message = [""]
      ∧ (sendMessageStart chatAttachmentOnly).2.map ChatRequest.message
        = ["Please analyze this image"]
      ∧ ("" : String) ≠ "please analyze this image"
      ∧ ("Please analyze this image" : String) ≠ "please analyze this image" := by
  refine ⟨?_, ?_, ?_, ?_⟩ <;> decide

/-- C4 as amended: on a send with empty composer text and a pending
attachment, the appended user message carries the empty composer text
together with the attachment, while the request body substitutes the
fixed placeholder `"Please analyze this image"`. -/
theorem placeholder_substitution (st : ChatState) (img : String)
    (hempty : st.inputMessage = "") (himg : st.selectedImage = some img) :
    (sendMessageStart st).1.messages
        = st.messages ++ [{ role := "user", message := "", image_base64 := some img }]
      ∧ (sendMessageStart st).2.map ChatRequest.message = ["Please analyze this image"] := by
  simp [sendMessageStart, hempty, himg]

/-- Witness for the amended C4 at the attachment-only chat state. -/
theorem placeholder_substitution_witness :
    (sendMessageStart chatAttachmentOnly).1.messages
        = chatAttachmentOnly.messages
          ++ [{ role := "user", message := ""
                image_base64 := some "data:image/png;base64,AAAA" }]
      ∧ (sendMessageStart chatAttachmentOnly).2.map ChatRequest.message
        = ["Please analyze this image"] :=
  placeholder_substitution chatAttachmentOnly "data:image/png;base64,AAAA" rfl rfl

/-! ## C7 — the optimistic message stores the display form -/

/-- Failing input for C7: sending with an attachment whose read
produced `"data:image/png;base64,AAAA"` appends a user message whose
`image_base64` is that full data URI — scheme prefix included, so not
the transport form — while the renderer re-prefixes the stored value
with `data:image/jpeg;base64,` (it assumes transport form), yielding a
double-prefixed `src`.  The wire request, by contrast, carries the
correct transport payload. -/
theorem optimistic_attachment_stores_display_form :
    (sendMessageStart chatWithAttachment).1.messages.map ChatMsg.image_base64
        = [some "data:image/png;base64,AAAA"]
      ∧ jsStartsWith "data:image/png;base64,AAAA" "data:" = true
      ∧ displaySrc "data:image/png;base64,AAAA"
        = "data:image/jpeg;base64,data:image/png;base64,AAAA"
      ∧ (sendMessageStart chatWithAttachment).2.map ChatRequest.image_base64
        = [some "AAAA"] := by
  refine ⟨?_, ?_, ?_, ?_⟩ <;> decide

/-! ## C3 — ordering of serialized sends -/

/-- One serialized round-trip with non-blank text appends the user
message and, on success, the assistant reply; the rest of the state
returns to the ready-to-send shape. -/
theorem serializedSend_state (st : ChatState) (t : String) (o : Option String)
    (ht : jsTrim t ≠ "") :
    (serializedSend st t none o).1 =
      { st with
          messages := st.messages ++ (userMsg t :: (o.map assistantMsg).toList)
          inputMessage := ""
          selectedImage := none
          isLoading := false } := by
  cases o <;>
    simp [serializedSend, sendMessageStart, sendMessageSuccess, sendMessageFailure,
      userMsg, assistantMsg, ht]

/-- Messages after a sequence of serialized sends: each send
contributes its user message followed by the assistant reply when the
round-trip succeeded. -/
theorem runSends_messages (sends : List (String × Option String)) (st : ChatState)
    (h : ∀ p ∈ sends, jsTrim p.1 ≠ "") :
    (runSends st sends).messages =
      st.messages
        ++ sends.flatMap (fun p => userMsg p.1 :: ((p.2).map assistantMsg).toList) := by
  induction sends generalizing st with
  | nil => simp [runSends]
  | cons p rest ih =>
    obtain ⟨t, o⟩ := p
    have hp : jsTrim t ≠ "" := h (t, o) (List.mem_cons_self _ _)
    have hrest : ∀ q ∈ rest, jsTrim q.1 ≠ "" := fun q hq => h q (List.mem_cons_of_mem _ hq)
    rw [runSends, ih _ hrest, serializedSend_state st t o hp]
    simp

/-- C3: starting from an empty chat session, N serialized sends with
non-blank texts yield exactly the alternating sequence
`[user 1, assistant 1, ..., user N, assistant N]` when every
round-trip succeeds; and when the trailing send fails, the sequence
ends with that send's user message, with no assistant entry for it —
nothing is removed, nothing synthetic is added, nothing reorders. -/
theorem chat_send_ordering (sid tN : String) (qs : List (String × String))
    (h : ∀ p ∈ qs, jsTrim p.1 ≠ "") (hN : jsTrim tN ≠ "") :
    (runSends (emptyChat sid) (qs.map (fun p => (p.1, some p.2)))).messages
        = qs.flatMap (fun p => [userMsg p.1, assistantMsg p.2])
      ∧ (runSends (emptyChat sid)
            (qs.map (fun p => (p.1, some p.2)) ++ [(tN, none)])).messages
        = qs.flatMap (fun p => [userMsg p.1, assistantMsg p.2]) ++ [userMsg tN] := by
  have hmap : ∀ p ∈ qs.map (fun p => (p.1, some p.2)), jsTrim p.1 ≠ "" := by
    intro p hp
    obtain ⟨q, hq, rfl⟩ := List.mem_map.mp hp
    exact h q hq
  have hboth : ∀ p ∈ qs.map (fun p => (p.1, some p.2)) ++ [(tN, none)],
      jsTrim p.1 ≠ "" := by
    intro p hp
    rcases List.mem_append.mp hp with hl | hr
    · exact hmap p hl
    · simp only [List.mem_singleton] at hr
      subst hr
      exact hN
  constructor
  · rw [runSends_messages _ _ hmap]
    simp [emptyChat, List.flatMap_map]
  · rw [runSends_messages _ _ hboth]
    simp [emptyChat, List.flatMap_map]

/-- Witness for C3 at a concrete two-send conversation followed by a
failing third send. -/
theorem chat_send_ordering_witness :
    (runSends (emptyChat "session_1700000000000")
        ([("how often should I water?", "Twice a week."),
          ("is shade okay?", "Partial shade is fine.")].map (fun p => (p.1, some p.2)))).messages
      = [("how often should I water?", "Twice a week."),
          ("is shade okay?", "Partial shade is fine.")].flatMap
          (fun p => [userMsg p.1, assistantMsg p.2])
    ∧ (runSends (emptyChat "session_1700000000000")
        ([("how often should I water?", "Twice a week."),
          ("is shade okay?", "Partial shade is fine.")].map (fun p => (p.1, some p.2))
          ++ [("my leaf has spots", none)])).messages
      = [("how often should I water?", "Twice a week."),
          ("is shade okay?", "Partial shade is fine.")].flatMap
          (fun p => [userMsg p.1, assistantMsg p.2]) ++ [userMsg "my leaf has spots"] :=
  chat_send_ordering "session_1700000000000" "my leaf has spots"
    [("how often should I water?", "Twice a week."),
      ("is shade okay?", "Partial shade is fine.")]
    (by decide) (by decide)

/-! ## C8 — transport payload extraction -/

/-- Splitting a comma-free list yields the single group holding the
whole list. -/
theorem splitCommaList_no_comma (l : List Char) (h : ',' ∉ l) :
    splitCommaList l = [l] := by
  induction l with
  | nil => rfl
  | cons c cs ih =>
    have h1 : ¬ c = ',' := fun e => h (by simp [e])
    have h2 : ',' ∉ cs := fun m => h (List.mem_cons_of_mem _ m)
    simp [splitCommaList, h1, ih h2]

/-- Splitting at the first comma: a comma-free prefix becomes the
first group. -/
theorem splitCommaList_split (pre post : List Char) (h : ',' ∉ pre) :
    splitCommaList (pre ++ ',' :: post) = pre :: splitCommaList post := by
  induction pre with
  | nil => simp [splitCommaList]
  | cons c cs ih =>
    have h1 : ¬ c = ',' := fun e => h (by simp [e])
    have h2 : ',' ∉ cs := fun m => h (List.mem_cons_of_mem _ m)
    simp [splitCommaList, h1, ih h2]

/-- The spec's substring-after-the-first-comma on a list with a
comma-free prefix. -/
theorem afterFirstCommaList_split (pre post : List Char) (h : ',' ∉ pre) :
    afterFirstCommaList (pre ++ ',' :: post) = some post := by
  induction pre with
  | nil => simp [afterFirstCommaList]
  | cons c cs ih =>
    have h1 : ¬ c = ',' := fun e => h (by simp [e])
    have h2 : ',' ∉ cs := fun m => h (List.mem_cons_of_mem _ m)
    simp [afterFirstCommaList, h1, ih h2]

/-- Rebuilding a string from its character list is the identity. -/
theorem string_mk_toList (s : String) : String.mk s.toList = s := rfl

/-- The character list of a data URI built from a comma-free MIME type
splits as a comma-free prefix, the comma, and the payload. -/
theorem dataUri_toList (mime payload : String) :
    ("data:" ++ mime ++ ";base64," ++ payload).toList
      = ("data:".toList ++ mime.toList ++ ";base64".toList) ++ ',' :: payload.toList := by
  show ("data:" ++ mime ++ ";base64," ++ payload).data
      = ("data:".data ++ mime.data ++ ";base64".data) ++ ',' :: payload.data
  simp [String.data_append, List.append_assoc]

/-- C8: for a data URI `data:<mime>;base64,<payload>` with a comma-free
MIME type and comma-free base64 payload, `split(',')[1]` extracts
exactly the payload; this agrees with the spec's substring following
the first comma; and it is the value both controllers place in the
request body's `image_base64` field. -/
theorem transport_payload_extraction (mime payload sid : String)
    (hm : ',' ∉ mime.toList) (hp : ',' ∉ payload.toList) :
    base64Of ("data:" ++ mime ++ ";base64," ++ payload) = some payload
      ∧ afterFirstComma ("data:" ++ mime ++ ";base64," ++ payload) = some payload
      ∧ (analyzeImageStart
            { selectedImage := some ("data:" ++ mime ++ ";base64," ++ payload)
              isLoading := false, prediction := none }).2
          = [{ image_base64 := some payload }]
      ∧ (sendMessageStart
            { messages := [], inputMessage := "hello", isLoading := false
              sessionId := sid
              selectedImage := some ("data:" ++ mime ++ ";base64," ++ payload) }).2.map
            ChatRequest.image_base64
          = [some payload] := by
  have hpre : ',' ∉ ("data:".toList ++ mime.toList ++ ";base64".toList) := by
    simp only [List.mem_append]
    rintro ((hd | hmm) | hb)
    · revert hd; decide
    · exact hm hmm
    · revert hb; decide
  have hsplit : splitCommaList ("data:" ++ mime ++ ";base64," ++ payload).toList
      = [("data:".toList ++ mime.toList ++ ";base64".toList), payload.toList] := by
    rw [dataUri_toList, splitCommaList_split _ _ hpre, splitCommaList_no_comma _ hp]
  have hbase : base64Of ("data:" ++ mime ++ ";base64," ++ payload) = some payload := by
    rw [base64Of, jsSplitComma, hsplit]
    simp [string_mk_toList]
  have hafter : afterFirstComma ("data:" ++ mime ++ ";base64," ++ payload) = some payload := by
    rw [afterFirstComma, dataUri_toList, afterFirstCommaList_split _ _ hpre]
    simp [string_mk_toList]
  refine ⟨hbase, hafter, ?_, ?_⟩
  · simp [analyzeImageStart, hbase]
  · have hguard : ¬ (jsTrim "hello" = "" ∧
        (some ("data:" ++ mime ++ ";base64," ++ payload) : Option String) = none) := by
      rintro ⟨he, _⟩
      revert he; decide
    simp [sendMessageStart, hguard, hbase]

/-- Witness for C8 at a concrete png data URI. -/
theorem transport_payload_extraction_witness :
    base64Of ("data:" ++ "image/png" ++ ";base64," ++ "iVBORw0KGgo") = some "iVBORw0KGgo"
      ∧ afterFirstComma ("data:" ++ "image/png" ++ ";base64," ++ "iVBORw0KGgo")
        = some "iVBORw0KGgo"
      ∧ (analyzeImageStart
            { selectedImage := some ("data:" ++ "image/png" ++ ";base64," ++ "iVBORw0KGgo")
              isLoading := false, prediction := none }).2
        = [{ image_base64 := some "iVBORw0KGgo" }]
      ∧ (sendMessageStart
            { messages := [], inputMessage := "hello", isLoading := false
              sessionId := "session_1700000000000"
              selectedImage := some ("data:" ++ "image/png" ++ ";base64," ++ "iVBORw0KGgo") }).2.map
            ChatRequest.image_base64
        = [some "iVBORw0KGgo"] :=
  transport_payload_extraction "image/png" "iVBORw0KGgo" "session_1700000000000"
    (by decide) (by decide)

end LeafHealth
